import Mathlib

/-!
Shallow embedding of the attendance system (app/models.py, app/api.py).

Conventions of the embedding:
* machine times of day are naturals (seconds since midnight); weekday is 0..6
  as in `Timetable.DayOfWeek`;
* coordinates and distances are rationals; the geodesic library
  (geopy.distance.distance) is an explicit function parameter `dist` of the
  operations that call it, since its numeric output is external input to the
  decision logic under scrutiny;
* Django querysets over a table are lists; the default Meta ordering of
  `Timetable` (`['day_of_week', 'start_time']`) is applied by sorting before
  `first()` / iteration, as Django does;
* `QuerySet.update(...)` returns the number of matched rows, which is what
  Django reports;
* a Python exception escaping a view is an `Except.error` value.
-/

namespace Presently

inductive UserType
  | student
  | lecturer
  | admin
deriving DecidableEq

/-- User model (models.py `User`): role, department foreign key (nullable via
`SET_NULL`), level (nullable). Fields not consulted by the audited code paths
are omitted. -/
structure User where
  id : Nat
  userType : UserType
  departmentId : Option Nat
  level : Option Int
deriving DecidableEq

/-- Course model (models.py `Course`): non-null department foreign key and
level. -/
structure Course where
  id : Nat
  departmentId : Nat
  level : Int
deriving DecidableEq

/-- LectureHall model (models.py `LectureHall`): venue coordinates and radius
in meters (`IntegerField`, default 100). -/
structure LectureHall where
  id : Nat
  latitude : ℚ
  longitude : ℚ
  radius : Int
deriving DecidableEq

/-- Timetable model (models.py `Timetable`): a recurring weekly schedule
entry. -/
structure Timetable where
  id : Nat
  courseId : Nat
  dayOfWeek : Nat
  startTime : Nat
  endTime : Nat
  lectureHallId : Nat
  active : Bool
deriving DecidableEq

/-- Attendance status choices (models.py `Attendance.Status`). -/
inductive Status
  | present
  | absent
  | voided
deriving DecidableEq

/-- Attendance model (models.py `Attendance`); `status` defaults to
`present` on creation. -/
structure Attendance where
  id : Nat
  studentId : Nat
  courseId : Nat
  timetableId : Nat
  latitude : Option ℚ
  longitude : Option ℚ
  status : Status
deriving DecidableEq

/-- Database state: one list per table. -/
structure DB where
  users : List User
  courses : List Course
  halls : List LectureHall
  timetables : List Timetable
  attendances : List Attendance
deriving DecidableEq

/-- Foreign-key dereference `timetable.course`. -/
def getCourse (db : DB) (i : Nat) : Option Course :=
  db.courses.find? fun c => c.id == i

/-- Foreign-key dereference `timetable.lecture_hall`. -/
def getHall (db : DB) (i : Nat) : Option LectureHall :=
  db.halls.find? fun h => h.id == i

/-- Default Meta ordering of `Timetable`: `ordering = ['day_of_week',
'start_time']` (models.py). -/
def schedLE (a b : Timetable) : Prop :=
  a.dayOfWeek < b.dayOfWeek ∨ (a.dayOfWeek = b.dayOfWeek ∧ a.startTime ≤ b.startTime)

instance : DecidableRel schedLE := fun a b =>
  inferInstanceAs (Decidable (a.dayOfWeek < b.dayOfWeek ∨
    (a.dayOfWeek = b.dayOfWeek ∧ a.startTime ≤ b.startTime)))

instance : IsTotal Timetable schedLE := by
  constructor
  intro a b
  unfold schedLE
  omega

instance : IsTrans Timetable schedLE := by
  constructor
  intro a b c hab hbc
  unfold schedLE at hab hbc ⊢
  omega

instance : IsRefl Timetable schedLE := by
  constructor
  intro a
  unfold schedLE
  omega

/-- A Timetable queryset with the default Meta ordering applied. -/
def sortedTimetables (db : DB) : List Timetable :=
  List.insertionSort schedLE db.timetables

/-- Filter used by the active-class queries (api.py, `mark_attendance` and
friends): `day_of_week=today, start_time__lte=now, end_time__gte=now,
course__department=dept, active=True`. -/
def timetableMatches (db : DB) (dept : Option Nat) (today : Nat) (now : Nat)
    (tt : Timetable) : Bool :=
  tt.dayOfWeek == today
    && decide (tt.startTime ≤ now)
    && decide (now ≤ tt.endTime)
    && (match getCourse db tt.courseId with
        | some c => some c.departmentId == dept
        | none => false)
    && tt.active

/-- The `.first()` of the active-class queryset: first element, in default
Meta ordering, satisfying the filter (api.py lines 263-269). -/
def resolveActive (db : DB) (dept : Option Nat) (today : Nat) (now : Nat) :
    Option Timetable :=
  (sortedTimetables db).find? (timetableMatches db dept today now)

/-- Outcome of `AttendanceViewSet.mark_attendance`; each constructor is one of
the `return Response(...)` branches. `dbError` is the unreachable dangling
foreign-key case (referential integrity rules it out). -/
inductive MarkResult
  | onlyStudents
  | noActiveClass
  | alreadyMarked
  | outOfRange (distance : ℚ) (allowedRadius : Int)
  | success (created : Attendance)
  | dbError
deriving DecidableEq

/-- The record built by `Attendance.objects.create(...)` (api.py lines
295-301): status takes the model default `present`. -/
def newAttendance (freshId : Nat) (studentId : Nat) (tt : Timetable)
    (lat long : ℚ) : Attendance :=
  { id := freshId, studentId := studentId, courseId := tt.courseId,
    timetableId := tt.id, latitude := some lat, longitude := some long,
    status := Status.present }

/-- The duplicate check `Attendance.objects.filter(student=user,
timetable=current_timetable).exists()` (api.py lines 274-277). -/
def hasRecordFor (db : DB) (studentId ttId : Nat) : Bool :=
  db.attendances.any fun a => a.studentId == studentId && a.timetableId == ttId

/-- `AttendanceViewSet.mark_attendance` (api.py lines 252-306). `dist` is the
geodesic distance function (geopy), `today`/`now` the wall clock, `freshId`
the primary key the storage layer assigns on insert. -/
def mark_attendance (db : DB) (dist : ℚ → ℚ → ℚ → ℚ → ℚ) (user : User)
    (today : Nat) (now : Nat) (latitude longitude : ℚ) (freshId : Nat) :
    MarkResult × DB :=
  if user.userType ≠ UserType.student then
    (MarkResult.onlyStudents, db)
  else
    match resolveActive db user.departmentId today now with
    | none => (MarkResult.noActiveClass, db)
    | some tt =>
      if hasRecordFor db user.id tt.id then
        (MarkResult.alreadyMarked, db)
      else
        match getHall db tt.lectureHallId with
        | none => (MarkResult.dbError, db)
        | some hall =>
          let d := dist hall.latitude hall.longitude latitude longitude
          if d > (hall.radius : ℚ) then
            (MarkResult.outOfRange d hall.radius, db)
          else
            let created := newAttendance freshId user.id tt latitude longitude
            (MarkResult.success created,
             { db with attendances := db.attendances ++ [created] })

/-- A Python exception escaping the audit view. -/
inductive PyError
  | zeroDivision
  | missingReference
deriving DecidableEq

/-- The expected cohort: `User.objects.filter(user_type=STUDENT,
department=..., level=...).count()` (api.py lines 644-648). -/
def cohortSize (db : DB) (deptId : Nat) (lvl : Int) : Nat :=
  (db.users.filter fun u =>
    u.userType == UserType.student && u.departmentId == some deptId
      && u.level == some lvl).length

/-- The queryset `Attendance.objects.filter(timetable=timetable)` (api.py
lines 650, 654): note it carries no status filter. -/
def recordsForEntry (db : DB) (ttId : Nat) : List Attendance :=
  db.attendances.filter fun a => a.timetableId == ttId

/-- The voiding step `Attendance.objects.filter(timetable=timetable)
.update(status=VOIDED)` (api.py line 654): sets every matched record to
`voided` and returns the number of matched rows. -/
def voidFor (db : DB) (ttId : Nat) : Nat × DB :=
  ((recordsForEntry db ttId).length,
   { db with attendances := db.attendances.map fun a =>
       if a.timetableId == ttId then { a with status := Status.voided } else a })

/-- The audit's queryset of recently ended classes (api.py lines 634-639):
`day_of_week=today, end_time__gte=lo, end_time__lte=hi, active=True`, in
default Meta ordering. -/
def auditClasses (db : DB) (today : Nat) (lo hi : Nat) : List Timetable :=
  (sortedTimetables db).filter fun tt =>
    tt.dayOfWeek == today && decide (lo ≤ tt.endTime)
      && decide (tt.endTime ≤ hi) && tt.active

/-- One iteration of the audit loop (api.py lines 643-655). The accumulator is
(voided count so far, database state). Python's `marked / total` raises
`ZeroDivisionError` when `total` is zero, which aborts the whole view. -/
def auditStep (acc : Nat × DB) (tt : Timetable) : Except PyError (Nat × DB) :=
  match getCourse acc.2 tt.courseId with
  | none => Except.error PyError.missingReference
  | some c =>
    let totalStudents := cohortSize acc.2 c.departmentId c.level
    let marked := (recordsForEntry acc.2 tt.id).length
    if totalStudents == 0 then
      Except.error PyError.zeroDivision
    else if (marked : ℚ) / (totalStudents : ℚ) < mkRat 1 10 then
      let r := voidFor acc.2 tt.id
      Except.ok (acc.1 + r.1, r.2)
    else
      Except.ok acc

/-- The JSON body of the audit's 200 response. -/
structure AuditResponse where
  voidedCount : Nat
  totalClasses : Nat
deriving DecidableEq

/-- `ValidateAttendanceView.post` (api.py lines 627-661): iterate the recent
classes, then report the accumulated voided count and re-count the class
queryset against the final state. -/
def validate_attendance (db : DB) (today : Nat) (lo hi : Nat) :
    Except PyError (AuditResponse × DB) :=
  match (auditClasses db today lo hi).foldlM auditStep (0, db) with
  | Except.error e => Except.error e
  | Except.ok r =>
      Except.ok ({ voidedCount := r.1,
                   totalClasses := (auditClasses r.2 today lo hi).length }, r.2)

/-- Count of a student's Present records for a course; the same filter appears
in models.py lines 146-150 and api.py lines 376-380. -/
def presentCountFor (db : DB) (studentId courseId : Nat) : Nat :=
  (db.attendances.filter fun a =>
    a.studentId == studentId && a.courseId == courseId
      && a.status == Status.present).length

/-- The student branch of `AttendanceViewSet.course_stats` (api.py lines
374-381): denominator `Timetable.objects.filter(course=course).count()` with
no `active` restriction. -/
def course_stats_percentage (db : DB) (studentId courseId : Nat) : ℚ :=
  let total := (db.timetables.filter fun tt => tt.courseId == courseId).length
  let attended := presentCountFor db studentId courseId
  if total > 0 then (attended : ℚ) / (total : ℚ) * 100 else 0

/-- The model property `Attendance.attendance_percentage` (models.py lines
143-151): denominator `Timetable.objects.filter(course=..., active=True)
.count()`. -/
def attendance_percentage (db : DB) (studentId courseId : Nat) : ℚ :=
  let total := (db.timetables.filter fun tt =>
    tt.courseId == courseId && tt.active).length
  let attended := presentCountFor db studentId courseId
  if total > 0 then (attended : ℚ) / (total : ℚ) * 100 else 0

/-- The quartile bucketing of `Attendance.quartile` (models.py lines
153-167), as a function of the percentage it reads. -/
def quartile (percentage : ℚ) : Nat :=
  if percentage = 0 then 0
  else if percentage ≤ 25 then 1
  else if percentage ≤ 50 then 2
  else if percentage ≤ 75 then 3
  else if percentage < 100 then 4
  else 5

/-- The storage-layer uniqueness constraint `unique_together = ('student',
'timetable')` (models.py lines 136-137), as an invariant on the attendance
table. -/
def UniquePairs (l : List Attendance) : Prop :=
  l.Pairwise fun a b => ¬(a.studentId = b.studentId ∧ a.timetableId = b.timetableId)

/-! Concrete states used by witnesses and counterexamples. -/

/-- A student of department 1, level 200. -/
def u4 : User := ⟨1, UserType.student, some 1, some 200⟩

/-- A schedule entry for course 7, Monday 10..60, in hall 1, enabled. -/
def tt4 : Timetable := ⟨3, 7, 0, 10, 60, 1, true⟩

/-- The venue of the spec scenario: (6.5244, 3.3792), radius 100 m. -/
def hall4 : LectureHall := ⟨1, mkRat 65244 10000, mkRat 33792 10000, 100⟩

/-- State in which `u4` already has a record for `tt4` and `tt4` is active. -/
def exDB4 : DB :=
  { users := [u4], courses := [⟨7, 1, 200⟩], halls := [hall4],
    timetables := [tt4],
    attendances := [⟨1, 1, 7, 3, none, none, Status.present⟩] }

/-- Same state without the existing record. -/
def exDB5 : DB :=
  { users := [u4], courses := [⟨7, 1, 200⟩], halls := [hall4],
    timetables := [tt4], attendances := [] }

/-- A venue with radius 0. -/
def hall7 : LectureHall := ⟨1, mkRat 5 1, mkRat 5 1, 0⟩

/-- State whose active entry points at the radius-0 venue. -/
def exDB7 : DB :=
  { users := [u4], courses := [⟨7, 1, 200⟩], halls := [hall7],
    timetables := [tt4], attendances := [] }

/-- Two overlapping enabled entries for the same course; `tt8a` starts
earlier. -/
def tt8a : Timetable := ⟨1, 7, 0, 10, 60, 1, true⟩

/-- The later-starting of the two overlapping entries. -/
def tt8b : Timetable := ⟨2, 7, 0, 20, 60, 1, true⟩

/-- State holding the overlapping entries, deliberately listed later-first. -/
def exDB8 : DB :=
  { users := [], courses := [⟨7, 1, 200⟩], halls := [hall4],
    timetables := [tt8b, tt8a], attendances := [] }

/-- Four schedule entries for course 1; student 1 has three Present records
and one Absent record. -/
def exDB6 : DB :=
  { users := [], courses := [⟨1, 1, 200⟩], halls := [hall4],
    timetables := [⟨1, 1, 0, 10, 60, 1, true⟩, ⟨2, 1, 1, 10, 60, 1, true⟩,
                   ⟨3, 1, 2, 10, 60, 1, true⟩, ⟨4, 1, 3, 10, 60, 1, true⟩],
    attendances := [⟨1, 1, 1, 1, none, none, Status.present⟩,
                    ⟨2, 1, 1, 2, none, none, Status.present⟩,
                    ⟨3, 1, 1, 3, none, none, Status.present⟩,
                    ⟨4, 1, 1, 4, none, none, Status.absent⟩] }

/-- A state with no schedule entries at all for course 1. -/
def exDB6z : DB :=
  { users := [], courses := [⟨1, 1, 200⟩], halls := [], timetables := [],
    attendances := [⟨1, 1, 1, 9, none, none, Status.present⟩] }

/-- One disabled schedule entry for course 1 and one Present record of
student 1 for it. -/
def exDB10 : DB :=
  { users := [], courses := [⟨1, 1, 200⟩], halls := [hall4],
    timetables := [⟨1, 1, 0, 10, 60, 1, false⟩],
    attendances := [⟨1, 1, 1, 1, none, none, Status.present⟩] }

/-- The same state with the entry enabled. -/
def exDB10w : DB :=
  { users := [], courses := [⟨1, 1, 200⟩], halls := [hall4],
    timetables := [⟨1, 1, 0, 10, 60, 1, true⟩],
    attendances := [⟨1, 1, 1, 1, none, none, Status.present⟩] }

/-- A single attendance record for schedule entry 1. -/
def exDB2 : DB :=
  { users := [], courses := [], halls := [], timetables := [],
    attendances := [⟨1, 1, 1, 1, none, none, Status.present⟩] }

/-- An enabled entry ending inside the audit window whose course cohort
(department 1, level 200) contains no students. -/
def exDB1 : DB :=
  { users := [], courses := [⟨1, 1, 200⟩], halls := [hall4],
    timetables := [⟨1, 1, 0, 0, 60, 1, true⟩], attendances := [] }

/-! Helper lemmas shared by the claim theorems. -/

/-- In a list sorted by the schedule ordering, `find?` returns an element
that is below every other element satisfying the predicate. -/
lemma find?_sorted_min {p : Timetable → Bool} {l : List Timetable}
    {x : Timetable} (hs : List.Pairwise schedLE l) (hf : l.find? p = some x) :
    ∀ y ∈ l, p y = true → schedLE x y := by
  induction l with
  | nil => simp at hf
  | cons a t ih =>
    cases hpa : p a with
    | true =>
      rw [List.find?_cons_of_pos _ hpa] at hf
      injection hf with hx
      subst hx
      intro y hy hpy
      rcases List.mem_cons.1 hy with rfl | hyt
      · exact Or.inr ⟨rfl, le_refl _⟩
      · exact (List.pairwise_cons.1 hs).1 y hyt
    | false =>
      rw [List.find?_cons_of_neg _ (by simp [hpa])] at hf
      intro y hy hpy
      rcases List.mem_cons.1 hy with rfl | hyt
      · rw [hpa] at hpy
        exact absurd hpy (by simp)
      · exact ih (List.pairwise_cons.1 hs).2 hf y hyt hpy

/-- Behavior of `mark_attendance` once the role check, the active-class
resolution, the duplicate check and the venue dereference have gone through:
the outcome is the bare distance/radius comparison. -/
lemma mark_attendance_run (db : DB) (dist : ℚ → ℚ → ℚ → ℚ → ℚ) (user : User)
    (today now : Nat) (lat long : ℚ) (freshId : Nat)
    (tt : Timetable) (hall : LectureHall)
    (hrole : user.userType = UserType.student)
    (hactive : resolveActive db user.departmentId today now = some tt)
    (hdup : hasRecordFor db user.id tt.id = false)
    (hhall : getHall db tt.lectureHallId = some hall) :
    mark_attendance db dist user today now lat long freshId
      = if dist hall.latitude hall.longitude lat long > (hall.radius : ℚ)
        then (MarkResult.outOfRange (dist hall.latitude hall.longitude lat long)
                hall.radius, db)
        else (MarkResult.success (newAttendance freshId user.id tt lat long),
              { db with attendances :=
                  db.attendances ++ [newAttendance freshId user.id tt lat long] }) := by
  simp [mark_attendance, hrole, hactive, hdup, hhall]

/-- Every branch of `mark_attendance` either leaves the state unchanged or
appends the freshly created record, and the append happens only when the
duplicate check found nothing. -/
lemma mark_attendance_state (db : DB) (dist : ℚ → ℚ → ℚ → ℚ → ℚ) (user : User)
    (today now : Nat) (lat long : ℚ) (freshId : Nat) :
    (mark_attendance db dist user today now lat long freshId).2 = db
    ∨ ∃ tt, resolveActive db user.departmentId today now = some tt
        ∧ hasRecordFor db user.id tt.id = false
        ∧ (mark_attendance db dist user today now lat long freshId).2
            = { db with attendances :=
                  db.attendances ++ [newAttendance freshId user.id tt lat long] } := by
  unfold mark_attendance
  split
  · exact Or.inl rfl
  · split
    · exact Or.inl rfl
    · rename_i tt heq
      split
      · exact Or.inl rfl
      · rename_i hdup
        split
        · exact Or.inl rfl
        · rename_i hall hhall
          dsimp only
          split
          · exact Or.inl rfl
          · exact Or.inr ⟨tt, heq, by simpa using hdup, rfl⟩

/-- The storage-layer uniqueness invariant on (student, timetable) is
preserved by every `mark_attendance` call. -/
lemma unique_after_mark (db : DB) (dist : ℚ → ℚ → ℚ → ℚ → ℚ) (user : User)
    (today now : Nat) (lat long : ℚ) (freshId : Nat)
    (hu : UniquePairs db.attendances) :
    UniquePairs (mark_attendance db dist user today now lat long freshId).2.attendances := by
  rcases mark_attendance_state db dist user today now lat long freshId with
    h | ⟨tt, hres, hdup, h⟩
  · rw [h]
    exact hu
  · rw [h]
    unfold UniquePairs at hu ⊢
    rw [List.pairwise_append]
    refine ⟨hu, List.pairwise_singleton _ _, ?_⟩
    intro a ha b hb
    rw [List.mem_singleton] at hb
    subst hb
    simp only [hasRecordFor, List.any_eq_true, not_exists] at hdup
    intro hcontra
    have : ∃ x, x ∈ db.attendances
        ∧ (x.studentId == user.id && x.timetableId == tt.id) = true := by
      refine ⟨a, ha, ?_⟩
      simp only [newAttendance] at hcontra
      simp [hcontra.1, hcontra.2]
    rcases this with ⟨x, hx, hxp⟩
    rw [List.any_eq_false] at hdup
    have := hdup x hx
    simp_all

/-- Voiding rewrites only the status field, so a record's membership in the
entry's queryset is unchanged; the matched-row count of a second update is
the matched-row count of the first. -/
lemma length_filter_map_void (l : List Attendance) (ttId : Nat) :
    ((l.map fun a => if a.timetableId == ttId
        then { a with status := Status.voided } else a).filter
      fun a => a.timetableId == ttId).length
      = (l.filter fun a => a.timetableId == ttId).length := by
  induction l with
  | nil => rfl
  | cons a t ih =>
    by_cases h : a.timetableId = ttId
    · simp [h]
      simpa using ih
    · simp [h]
      simpa using ih

/-! Claim theorems. -/

/-- C1: the audit does not skip a schedule entry with a zero expected cohort;
at the concrete state `exDB1` (one enabled entry ending inside the lookback
window, no student in the course's department and level) the unguarded
`marked_attendance / total_students` raises ZeroDivisionError and the run
aborts instead of completing. -/
theorem validate_attendance_zero_cohort_raises :
    validate_attendance exDB1 0 0 120 = Except.error PyError.zeroDivision := by
  rfl

/-- C2 counterexample: starting from a state with exactly one (Present)
record for schedule entry 1, the first voiding run reports 1 voided record,
and an immediate second run reports 1 again, not 0: the update's filter
carries no status restriction, so already-Voided rows are matched and counted
again. -/
theorem voidFor_second_run_not_zero :
    0 < (voidFor exDB2 1).1 ∧ ¬ (voidFor (voidFor exDB2 1).2 1).1 = 0 := by
  constructor
  · decide
  · decide

/-- C2 amended: running the voiding step a second time immediately after a
first run reports exactly the same count as the first run (the number of
records of the entry, whatever their status), rather than 0. -/
theorem voidFor_second_run_eq_first (db : DB) (ttId : Nat) :
    (voidFor (voidFor db ttId).2 ttId).1 = (voidFor db ttId).1 := by
  simp only [voidFor, recordsForEntry]
  exact length_filter_map_void db.attendances ttId

/-- C3: the quartile function maps 0 to 0, (0,25] to 1, (25,50] to 2,
(50,75] to 3, (75,100) to 4 and 100 to 5, with the stated boundary values. -/
theorem quartile_spec (p : ℚ) (hp : 0 ≤ p) :
    (p = 0 → quartile p = 0)
    ∧ (0 < p → p ≤ 25 → quartile p = 1)
    ∧ (25 < p → p ≤ 50 → quartile p = 2)
    ∧ (50 < p → p ≤ 75 → quartile p = 3)
    ∧ (75 < p → p < 100 → quartile p = 4)
    ∧ (p = 100 → quartile p = 5)
    ∧ quartile 0 = 0 ∧ quartile 25 = 1 ∧ quartile (mkRat 2501 100) = 2
    ∧ quartile 50 = 2 ∧ quartile 75 = 3 ∧ quartile (mkRat 9999 100) = 4
    ∧ quartile 100 = 5 := by
  refine ⟨?_, ?_, ?_, ?_, ?_, ?_, by decide, by decide, by decide, by decide,
    by decide, by decide, by decide⟩
  · intro h
    subst h
    decide
  · intro h1 h2
    unfold quartile
    split_ifs <;> first | rfl | linarith
  · intro h1 h2
    unfold quartile
    split_ifs <;> first | rfl | linarith
  · intro h1 h2
    unfold quartile
    split_ifs <;> first | rfl | linarith
  · intro h1 h2
    unfold quartile
    split_ifs <;> first | rfl | linarith
  · intro h
    subst h
    decide

/-- Witness for C3: percentage 30 lies in (25,50] and gets quartile 2. -/
theorem quartile_spec_witness :
    (0 ≤ (30:ℚ)) ∧ 25 < (30:ℚ) ∧ (30:ℚ) ≤ 50 ∧ quartile 30 = 2 :=
  ⟨by decide, by decide, by decide,
   (quartile_spec 30 (by decide)).2.2.1 (by decide) (by decide)⟩

/-- C4: when a record already exists for (student, schedule entry) and that
entry is the active one, a further mark attempt fails with AlreadyMarked and
the state is unchanged; moreover every `mark_attendance` call preserves the
storage-layer uniqueness invariant on (student, timetable), so no duplicate
is ever inserted. -/
theorem mark_attendance_already_marked (db : DB) (dist : ℚ → ℚ → ℚ → ℚ → ℚ)
    (user : User) (today now : Nat) (lat long : ℚ) (freshId : Nat)
    (tt : Timetable)
    (hrole : user.userType = UserType.student)
    (hactive : resolveActive db user.departmentId today now = some tt)
    (hdup : hasRecordFor db user.id tt.id = true) :
    mark_attendance db dist user today now lat long freshId
      = (MarkResult.alreadyMarked, db)
    ∧ (∀ (db2 : DB) (dist2 : ℚ → ℚ → ℚ → ℚ → ℚ) (u2 : User) (td2 n2 : Nat)
        (la2 lo2 : ℚ) (f2 : Nat),
        UniquePairs db2.attendances →
        UniquePairs (mark_attendance db2 dist2 u2 td2 n2 la2 lo2 f2).2.attendances) := by
  constructor
  · simp [mark_attendance, hrole, hactive, hdup]
  · intro db2 dist2 u2 td2 n2 la2 lo2 f2 hu
    exact unique_after_mark db2 dist2 u2 td2 n2 la2 lo2 f2 hu

/-- Witness for C4 at the concrete state `exDB4`. -/
theorem mark_attendance_already_marked_witness :
    u4.userType = UserType.student
    ∧ resolveActive exDB4 u4.departmentId 0 30 = some tt4
    ∧ hasRecordFor exDB4 u4.id tt4.id = true
    ∧ mark_attendance exDB4 (fun _ _ _ _ => 0) u4 0 30 0 0 9
        = (MarkResult.alreadyMarked, exDB4)
    ∧ UniquePairs (mark_attendance exDB4 (fun _ _ _ _ => 0) u4 0 30 0 0 9).2.attendances :=
  ⟨rfl, by decide, by decide,
   (mark_attendance_already_marked exDB4 (fun _ _ _ _ => 0) u4 0 30 0 0 9 tt4
      rfl (by decide) (by decide)).1,
   (mark_attendance_already_marked exDB4 (fun _ _ _ _ => 0) u4 0 30 0 0 9 tt4
      rfl (by decide) (by decide)).2 exDB4 (fun _ _ _ _ => 0) u4 0 30 0 0 9
      (by simp [UniquePairs, exDB4])⟩

/-- C5: for a mark attempt with an active entry and no prior record, the
attempt succeeds (creating the record) exactly when the computed distance is
at most the venue radius — boundary equality accepted — and otherwise fails
with OutOfRange carrying the computed distance and the allowed radius. -/
theorem mark_attendance_geofence (db : DB) (dist : ℚ → ℚ → ℚ → ℚ → ℚ)
    (user : User) (today now : Nat) (lat long : ℚ) (freshId : Nat)
    (tt : Timetable) (hall : LectureHall)
    (hrole : user.userType = UserType.student)
    (hactive : resolveActive db user.departmentId today now = some tt)
    (hdup : hasRecordFor db user.id tt.id = false)
    (hhall : getHall db tt.lectureHallId = some hall) :
    (dist hall.latitude hall.longitude lat long ≤ (hall.radius : ℚ) →
      mark_attendance db dist user today now lat long freshId
        = (MarkResult.success (newAttendance freshId user.id tt lat long),
           { db with attendances :=
               db.attendances ++ [newAttendance freshId user.id tt lat long] }))
    ∧ ((hall.radius : ℚ) < dist hall.latitude hall.longitude lat long →
      mark_attendance db dist user today now lat long freshId
        = (MarkResult.outOfRange (dist hall.latitude hall.longitude lat long)
             hall.radius, db)) := by
  constructor
  · intro h
    rw [mark_attendance_run db dist user today now lat long freshId tt hall
      hrole hactive hdup hhall]
    rw [if_neg (not_lt.2 h)]
  · intro h
    rw [mark_attendance_run db dist user today now lat long freshId tt hall
      hrole hactive hdup hhall]
    rw [if_pos h]

/-- Witness for C5 at `exDB5`: distance 50 within radius 100 succeeds,
distance 250 is rejected as OutOfRange(250, 100). -/
theorem mark_attendance_geofence_witness :
    ((fun _ _ _ _ => mkRat 50 1) hall4.latitude hall4.longitude 0 0 ≤ (hall4.radius : ℚ)
      ∧ mark_attendance exDB5 (fun _ _ _ _ => mkRat 50 1) u4 0 30 0 0 9
          = (MarkResult.success (newAttendance 9 1 tt4 0 0),
             { exDB5 with attendances := exDB5.attendances ++ [newAttendance 9 1 tt4 0 0] }))
    ∧ ((hall4.radius : ℚ) < (fun _ _ _ _ => mkRat 250 1) hall4.latitude hall4.longitude 0 0
      ∧ mark_attendance exDB5 (fun _ _ _ _ => mkRat 250 1) u4 0 30 0 0 9
          = (MarkResult.outOfRange (mkRat 250 1) hall4.radius, exDB5)) :=
  ⟨⟨by decide,
    (mark_attendance_geofence exDB5 (fun _ _ _ _ => mkRat 50 1) u4 0 30 0 0 9
      tt4 hall4 rfl (by decide) (by decide) (by decide)).1 (by decide)⟩,
   ⟨by decide,
    (mark_attendance_geofence exDB5 (fun _ _ _ _ => mkRat 250 1) u4 0 30 0 0 9
      tt4 hall4 rfl (by decide) (by decide) (by decide)).2 (by decide)⟩⟩

/-- C9: the duplicate check precedes the geofence check — with an existing
record for the active entry, the attempt fails with AlreadyMarked uniformly
in the supplied coordinates and in the distance function (so no computed
distance can influence the outcome, and it is never OutOfRange). -/
theorem mark_attendance_duplicate_before_geofence (db : DB) (user : User)
    (today now : Nat) (tt : Timetable)
    (hrole : user.userType = UserType.student)
    (hactive : resolveActive db user.departmentId today now = some tt)
    (hdup : hasRecordFor db user.id tt.id = true) :
    ∀ (dist : ℚ → ℚ → ℚ → ℚ → ℚ) (lat long : ℚ) (freshId : Nat),
      mark_attendance db dist user today now lat long freshId
        = (MarkResult.alreadyMarked, db) := by
  intro dist lat long freshId
  simp [mark_attendance, hrole, hactive, hdup]

/-- Witness for C9: two attempts with different coordinates and different
distance functions both come back AlreadyMarked with the state unchanged. -/
theorem mark_attendance_duplicate_before_geofence_witness :
    mark_attendance exDB4 (fun _ _ _ _ => 0) u4 0 30 (mkRat 1 1) (mkRat 2 1) 9
        = (MarkResult.alreadyMarked, exDB4)
    ∧ mark_attendance exDB4 (fun _ _ _ _ => mkRat 999 1) u4 0 30 (mkRat 77 1) (mkRat 88 1) 10
        = (MarkResult.alreadyMarked, exDB4) :=
  ⟨mark_attendance_duplicate_before_geofence exDB4 u4 0 30 tt4 rfl (by decide)
      (by decide) (fun _ _ _ _ => 0) (mkRat 1 1) (mkRat 2 1) 9,
   mark_attendance_duplicate_before_geofence exDB4 u4 0 30 tt4 rfl (by decide)
      (by decide) (fun _ _ _ _ => mkRat 999 1) (mkRat 77 1) (mkRat 88 1) 10⟩

/-- C7 counterexample: at `exDB7` the supplied longitude 200 is out of range
and the venue radius is 0, yet the attempt is not rejected with any invalid-
coordinate failure: it succeeds and creates a record. No coordinate or radius
validation exists in `mark_attendance`. -/
theorem mark_attendance_no_coordinate_validation :
    ¬ ((mkRat 200 1 ≤ (180:ℚ)) ∨ 0 < hall7.radius)
    ∧ mark_attendance exDB7 (fun _ _ _ _ => 0) u4 0 30 (mkRat 50 1) (mkRat 200 1) 9
        = (MarkResult.success (newAttendance 9 1 tt4 (mkRat 50 1) (mkRat 200 1)),
           { exDB7 with attendances := [newAttendance 9 1 tt4 (mkRat 50 1) (mkRat 200 1)] }) := by
  constructor
  · decide
  · decide

/-- C7 amended: `mark_attendance` performs no coordinate-range or radius
validation; even when the supplied longitude is out of range or the venue
radius is non-positive, the decision is the plain distance/radius comparison:
OutOfRange (with the computed distance and the radius) exactly when the
distance exceeds the radius, otherwise a record is created. -/
theorem mark_attendance_no_validation (db : DB) (dist : ℚ → ℚ → ℚ → ℚ → ℚ)
    (user : User) (today now : Nat) (lat long : ℚ) (freshId : Nat)
    (tt : Timetable) (hall : LectureHall)
    (hrole : user.userType = UserType.student)
    (hactive : resolveActive db user.departmentId today now = some tt)
    (hdup : hasRecordFor db user.id tt.id = false)
    (hhall : getHall db tt.lectureHallId = some hall)
    (hbad : ¬(-(180:ℚ) ≤ long ∧ long ≤ 180) ∨ hall.radius ≤ 0) :
    ((hall.radius : ℚ) < dist hall.latitude hall.longitude lat long →
      mark_attendance db dist user today now lat long freshId
        = (MarkResult.outOfRange (dist hall.latitude hall.longitude lat long)
             hall.radius, db))
    ∧ (dist hall.latitude hall.longitude lat long ≤ (hall.radius : ℚ) →
      mark_attendance db dist user today now lat long freshId
        = (MarkResult.success (newAttendance freshId user.id tt lat long),
           { db with attendances :=
               db.attendances ++ [newAttendance freshId user.id tt lat long] })) := by
  constructor
  · intro h
    rw [mark_attendance_run db dist user today now lat long freshId tt hall
      hrole hactive hdup hhall]
    rw [if_pos h]
  · intro h
    rw [mark_attendance_run db dist user today now lat long freshId tt hall
      hrole hactive hdup hhall]
    rw [if_neg (not_lt.2 h)]

/-- Witness for C7 amended: radius 0 with computed distance 5 yields
OutOfRange(5, 0), not an invalid-coordinate failure. -/
theorem mark_attendance_no_validation_witness :
    (hall7.radius ≤ 0)
    ∧ ((hall7.radius : ℚ) < (fun _ _ _ _ => mkRat 5 1) hall7.latitude hall7.longitude (mkRat 50 1) (mkRat 200 1))
    ∧ mark_attendance exDB7 (fun _ _ _ _ => mkRat 5 1) u4 0 30 (mkRat 50 1) (mkRat 200 1) 9
        = (MarkResult.outOfRange (mkRat 5 1) hall7.radius, exDB7) :=
  ⟨by decide, by decide,
   (mark_attendance_no_validation exDB7 (fun _ _ _ _ => mkRat 5 1) u4 0 30
      (mkRat 50 1) (mkRat 200 1) 9 tt4 hall7 rfl (by decide) (by decide)
      (by decide) (Or.inr (by decide))).1 (by decide)⟩

/-- C6: the student percentage of course_stats is Present-count over the
count of all schedule entries of the course, times 100, and is 0 when the
course has no schedule entries. -/
theorem course_stats_percentage_spec (db : DB) (s c : Nat) :
    ((db.timetables.countP fun tt => tt.courseId == c) = 0 →
      course_stats_percentage db s c = 0)
    ∧ (0 < (db.timetables.countP fun tt => tt.courseId == c) →
      course_stats_percentage db s c =
        ((db.attendances.countP fun a =>
            a.studentId == s && a.courseId == c && a.status == Status.present : ℕ) : ℚ)
          / (((db.timetables.countP fun tt => tt.courseId == c : ℕ)) : ℚ) * 100) := by
  simp only [course_stats_percentage, presentCountFor, List.countP_eq_length_filter]
  constructor
  · intro h
    rw [h]
    simp
  · intro h
    rw [if_pos h]

/-- Witness for C6: 3 Present records against 4 schedule entries follows the
formula, and a course without entries reports 0. -/
theorem course_stats_percentage_spec_witness :
    (0 < (exDB6.timetables.countP fun tt => tt.courseId == 1)
      ∧ course_stats_percentage exDB6 1 1 =
        ((exDB6.attendances.countP fun a =>
            a.studentId == 1 && a.courseId == 1 && a.status == Status.present : ℕ) : ℚ)
          / (((exDB6.timetables.countP fun tt => tt.courseId == 1 : ℕ)) : ℚ) * 100)
    ∧ ((exDB6z.timetables.countP fun tt => tt.courseId == 1) = 0
      ∧ course_stats_percentage exDB6z 1 1 = 0) :=
  ⟨⟨by decide, (course_stats_percentage_spec exDB6 1 1).2 (by decide)⟩,
   ⟨by decide, (course_stats_percentage_spec exDB6z 1 1).1 (by decide)⟩⟩

/-- C8: resolving the active entry returns nothing exactly when no enabled
entry of the department matches the weekday and contains the time of day
(window boundaries inclusive); and a returned entry is a matching entry of
the table that is first in the (day-of-week, start-time) ordering among all
matching entries. -/
theorem resolveActive_spec (db : DB) (dept : Option Nat) (today now : Nat) :
    (resolveActive db dept today now = none ↔
      ∀ tt ∈ db.timetables, timetableMatches db dept today now tt = false)
    ∧ (∀ e, resolveActive db dept today now = some e →
        e ∈ db.timetables ∧ timetableMatches db dept today now e = true ∧
        ∀ tt ∈ db.timetables, timetableMatches db dept today now tt = true →
          schedLE e tt) := by
  have hperm := List.perm_insertionSort schedLE db.timetables
  constructor
  · rw [resolveActive, List.find?_eq_none]
    constructor
    · intro h tt htt
      have := h tt ((hperm.mem_iff).2 htt)
      simpa using this
    · intro h tt htt
      have := h tt ((hperm.mem_iff).1 htt)
      simp [this]
  · intro e he
    have hmem : e ∈ sortedTimetables db := List.mem_of_find?_eq_some he
    have hp : timetableMatches db dept today now e = true := List.find?_some he
    refine ⟨(hperm.mem_iff).1 hmem, hp, ?_⟩
    intro tt htt hptt
    exact find?_sorted_min (List.sorted_insertionSort schedLE db.timetables) he
      tt ((hperm.mem_iff).2 htt) hptt

/-- Witness for C8 at `exDB8`: both overlapping entries match at time 30; the
resolved entry `tt8a` is below `tt8b` in the ordering, and at time 5, before
both windows, nothing resolves. -/
theorem resolveActive_spec_witness :
    timetableMatches exDB8 (some 1) 0 30 tt8a = true
    ∧ timetableMatches exDB8 (some 1) 0 30 tt8b = true
    ∧ schedLE tt8a tt8b
    ∧ resolveActive exDB8 (some 1) 0 5 = none :=
  ⟨by decide, by decide,
   ((resolveActive_spec exDB8 (some 1) 0 30).2 tt8a (by decide)).2.2 tt8b
      (by decide) (by decide),
   (resolveActive_spec exDB8 (some 1) 0 5).1.2 (by decide)⟩

/-- C10 counterexample: at `exDB10` (one disabled schedule entry for the
course, one Present record) the model property reports 0 while course_stats
reports 100: the two computations disagree because only the former filters
its denominator to enabled entries. -/
theorem attendance_percentage_ne_course_stats :
    ¬ attendance_percentage exDB10 1 1 = course_stats_percentage exDB10 1 1 := by
  simp only [attendance_percentage, course_stats_percentage, presentCountFor, exDB10]
  norm_num

/-- C10 amended: the two percentage computations agree whenever every
schedule entry of the course is enabled; in general they differ, since the
model property counts only enabled entries in its denominator while
course_stats counts all. -/
theorem attendance_percentage_eq_course_stats_of_active (db : DB) (s c : Nat)
    (h : ∀ tt ∈ db.timetables, tt.courseId = c → tt.active = true) :
    attendance_percentage db s c = course_stats_percentage db s c := by
  unfold attendance_percentage course_stats_percentage
  have hf : db.timetables.filter (fun tt => tt.courseId == c && tt.active)
      = db.timetables.filter (fun tt => tt.courseId == c) := by
    apply List.filter_congr
    intro tt htt
    cases hc : (tt.courseId == c) with
    | false => simp
    | true =>
      have : tt.active = true := h tt htt (by simpa using hc)
      simp [this]
  rw [hf]

/-- Witness for C10 amended at `exDB10w`, where the course's only entry is
enabled. -/
theorem attendance_percentage_eq_course_stats_witness :
    (exDB10w.timetables.all fun tt => !(tt.courseId == 1) || tt.active) = true
    ∧ attendance_percentage exDB10w 1 1 = course_stats_percentage exDB10w 1 1 :=
  ⟨by decide,
   attendance_percentage_eq_course_stats_of_active exDB10w 1 1 (by decide)⟩

end Presently
